import Mathlib

/-!
# Ruh product safety analyzer — verification of the analysis pipeline

Shallow embedding of the Ruh analysis pipeline: the deterministic harm-score
calculator, the cache layers (extension IndexedDB cache and backend
`product_analyses` table), the URL-hash cache-key derivation, the fetch
confidence routing, the knowledge-base fuzzy matcher and the LOG-ONLY
validation filter, together with theorems settling the specification's
testable properties.

Sources: `extension/src/lib/cache.ts`, `extension/src/lib/utils.ts`,
`extension/src/types/index.ts`, `extension/src/content/content.ts` (TypeScript,
verbatim in the repository), and the backend Python modules
(`domain/harm_calculator.py`, `infrastructure/database.py`,
`api/routes/analyze.py`, `domain/ingredient_matcher.py`), which are not shipped
in the repository snapshot: those are embedded following the repository's own
function-level documentation (the "SOURCE OF TRUTH" flow document and the
layer READMEs) and, where the documentation only sketches, the specification's
words; such definitions are marked `Modelled from the spec:`.
-/

namespace Ruh

/-! ## Substance detections and the harm-score calculator

`HarmScoreCalculator.calculate` (backend `domain/harm_calculator.py`) is
documented as: start from 0; add severity points per allergen; add 40 points
per PFAS compound; add category points per other concern; apply category
multipliers (pesticides, cleaners); add a confidence penalty when
confidence < 0.7; cap into [0,100]; minimum 25 if any concerns detected.
-/

/-- Substance category of a validated detection (closed tagged variant of the
ad hoc string tags used by the backend: allergen / PFAS / other toxin). -/
inductive SubstanceCategory where
  | allergen : SubstanceCategory
  | persistentChemical : SubstanceCategory
  | toxin : SubstanceCategory
deriving DecidableEq, Repr

/-- A validated substance detection: canonical name, category, ordinal
severity (1–10) and detection confidence. -/
structure ValidatedDetection where
  canonical_name : String
  category : SubstanceCategory
  severity : ℕ
  confidence : ℚ
deriving DecidableEq, Repr

/-- Modelled from the spec: allergen detections score severity-scaled points in
[5,30], the ordinal severity 1–10 mapped linearly into that range
(`harm_calculator.py` is not in the snapshot; the flow document records
"severity points (5-30 per allergen)"). -/
def allergenPoints (sev : ℕ) : ℚ :=
  5 + (min (max sev 1) 10 - 1 : ℚ) * 25 / 9

/-- Modelled from the spec: other-toxin detections score category-scaled points
in [5,40], the ordinal 1–10 mapped linearly into that range. -/
def toxinPoints (sev : ℕ) : ℚ :=
  5 + (min (max sev 1) 10 - 1 : ℚ) * 35 / 9

/-- Points contributed by a single detection: allergens 5–30 by severity, PFAS
compounds a fixed 40 each, other toxins 5–40 by category scale. -/
def detectionPoints (d : ValidatedDetection) : ℚ :=
  match d.category with
  | .allergen => allergenPoints d.severity
  | .persistentChemical => 40
  | .toxin => toxinPoints d.severity

/-- Modelled from the spec: multiplicative category risk factor, 1.15×–1.4× for
high-risk product categories (pesticides 1.4, cleaners 1.15), 1 otherwise. -/
def categoryMultiplier (category : String) : ℚ :=
  if category = "pesticides" then 7 / 5
  else if category = "cleaners" then 23 / 20
  else 1

/-- Modelled from the spec: the fixed penalty added when overall confidence is
below 0.7. The source material fixes only that it is a fixed positive
constant; 20 is consistent with spec Scenario C (clamp((30+30)·1.4 + penalty)
= 100). -/
def confidencePenalty : ℚ := 20

/-- Modelled from the spec: `HarmScoreCalculator.calculate`. Sum the per-
detection points, apply the category multiplier to the running total, add the
confidence penalty when `overall_confidence < 0.7`, clamp to [0,100], and floor
at 25 when the detection list is non-empty. -/
def harmScore (detections : List ValidatedDetection) (overall_confidence : ℚ)
    (category : String) : ℚ :=
  let base := (detections.map detectionPoints).sum
  let scaled := base * categoryMultiplier category
  let withPenalty := if overall_confidence < 7 / 10 then scaled + confidencePenalty else scaled
  let clamped := max 0 (min withPenalty 100)
  if detections = [] then clamped else max 25 clamped

/-! ## Cache key derivation (`infrastructure/database.py::generate_url_hash`)

The flow document records the cache key as
`hashlib.sha256(url.encode()).hexdigest()` — the SHA-256 hex digest of the
**raw** URL string, with no normalization step. SHA-256 is embedded below per
FIPS 180-4 (bytes as `ℕ < 256`, 32-bit words as `ℕ` reduced `% 2^32`);
`utf8Bytes` agrees with Python's `str.encode()` on the ASCII URLs considered
here.
-/

def w32 (x : ℕ) : ℕ := x % 4294967296

def rotr32 (n x : ℕ) : ℕ := w32 ((x >>> n) ||| (x <<< (32 - n)))

def shaCh (x y z : ℕ) : ℕ := (x &&& y) ^^^ ((x ^^^ 4294967295) &&& z)

def shaMaj (x y z : ℕ) : ℕ := ((x &&& y) ^^^ (x &&& z)) ^^^ (y &&& z)

def bigSigma0 (x : ℕ) : ℕ := (rotr32 2 x ^^^ rotr32 13 x) ^^^ rotr32 22 x

def bigSigma1 (x : ℕ) : ℕ := (rotr32 6 x ^^^ rotr32 11 x) ^^^ rotr32 25 x

def smallSigma0 (x : ℕ) : ℕ := (rotr32 7 x ^^^ rotr32 18 x) ^^^ (x >>> 3)

def smallSigma1 (x : ℕ) : ℕ := (rotr32 17 x ^^^ rotr32 19 x) ^^^ (x >>> 10)

def shaK : List ℕ :=
  [1116352408, 1899447441, 3049323471, 3921009573, 961987163, 1508970993,
   2453635748, 2870763221, 3624381080, 310598401, 607225278, 1426881987,
   1925078388, 2162078206, 2614888103, 3248222580, 3835390401, 4022224774,
   264347078, 604807628, 770255983, 1249150122, 1555081692, 1996064986,
   2554220882, 2821834349, 2952996808, 3210313671, 3336571891, 3584528711,
   113926993, 338241895, 666307205, 773529912, 1294757372, 1396182291,
   1695183700, 1986661051, 2177026350, 2456956037, 2730485921, 2820302411,
   3259730800, 3345764771, 3516065817, 3600352804, 4094571909, 275423344,
   430227734, 506948616, 659060556, 883997877, 958139571, 1322822218,
   1537002063, 1747873779, 1955562222, 2024104815, 2227730452, 2361852424,
   2428436474, 2756734187, 3204031479, 3329325298]

structure ShaState where
  a : ℕ
  b : ℕ
  c : ℕ
  d : ℕ
  e : ℕ
  f : ℕ
  g : ℕ
  h : ℕ

def shaInit : ShaState :=
  ⟨1779033703, 3144134277, 1013904242, 2773480762,
   1359893119, 2600822924, 528734635, 1541459225⟩

def toBytesBE : ℕ → ℕ → List ℕ
  | 0, _ => []
  | n + 1, x => toBytesBE n (x >>> 8) ++ [x % 256]

def padMessage (msg : List ℕ) : List ℕ :=
  msg ++ 128 :: List.replicate ((119 - msg.length % 64) % 64) 0
    ++ toBytesBE 8 (msg.length * 8)

def bytesToWords : List ℕ → List ℕ
  | b0 :: b1 :: b2 :: b3 :: rest =>
      ((b0 <<< 24) + (b1 <<< 16) + (b2 <<< 8) + b3) :: bytesToWords rest
  | _ => []

def chunks64 : ℕ → List ℕ → List (List ℕ)
  | 0, _ => []
  | _ + 1, [] => []
  | fuel + 1, l => l.take 64 :: chunks64 fuel (l.drop 64)

def extendWordsStep (ws : List ℕ) : List ℕ :=
  ws ++ [w32 (smallSigma1 (ws.getD (ws.length - 2) 0) + ws.getD (ws.length - 7) 0
    + smallSigma0 (ws.getD (ws.length - 15) 0) + ws.getD (ws.length - 16) 0)]

def extendWords (ws : List ℕ) : List ℕ := Nat.iterate extendWordsStep 48 ws

def shaRound (st : ShaState) (kw : ℕ × ℕ) : ShaState :=
  let t1 := w32 (st.h + bigSigma1 st.e + shaCh st.e st.f st.g + kw.1 + kw.2)
  let t2 := w32 (bigSigma0 st.a + shaMaj st.a st.b st.c)
  ⟨w32 (t1 + t2), st.a, st.b, st.c, w32 (st.d + t1), st.e, st.f, st.g⟩

def processBlock (st : ShaState) (block : List ℕ) : ShaState :=
  let r := (shaK.zip (extendWords (bytesToWords block))).foldl shaRound st
  ⟨w32 (st.a + r.a), w32 (st.b + r.b), w32 (st.c + r.c), w32 (st.d + r.d),
   w32 (st.e + r.e), w32 (st.f + r.f), w32 (st.g + r.g), w32 (st.h + r.h)⟩

def sha256Words (msg : List ℕ) : List ℕ :=
  let padded := padMessage msg
  let st := (chunks64 padded.length padded).foldl processBlock shaInit
  [st.a, st.b, st.c, st.d, st.e, st.f, st.g, st.h]

def hexChar (n : ℕ) : Char :=
  if n < 10 then Char.ofNat (48 + n) else Char.ofNat (87 + n)

def wordHex (x : ℕ) : List Char :=
  [28, 24, 20, 16, 12, 8, 4, 0].map (fun s => hexChar ((x >>> s) % 16))

def sha256Hex (msg : List ℕ) : String :=
  String.mk ((sha256Words msg).map wordHex).flatten

def utf8Bytes (s : String) : List ℕ := s.data.map Char.toNat

def generate_url_hash (url : String) : String := sha256Hex (utf8Bytes url)

/-! ## Extension data types (`extension/src/types/index.ts`) -/

/-- Detected allergen with severity (`AllergenDetection`). -/
structure AllergenDetection where
  name : String
  severity : String
  source : String
  confidence : ℚ
deriving DecidableEq, Repr

/-- Detected PFAS compound with health effects (`PFASDetection`). -/
structure PFASDetection where
  name : String
  cas_number : Option String
  body_effects : String
  source : String
  confidence : ℚ
deriving DecidableEq, Repr

/-- Other harmful substance (`ToxinConcern`). -/
structure ToxinConcern where
  name : String
  category : String
  severity : String
  description : String
  confidence : ℚ
deriving DecidableEq, Repr

/-- Complete analysis of a product's safety (`ProductAnalysis`);
`overall_score` is the safety score, 0–100 where 100 = safe. -/
structure ProductAnalysis where
  id : Option String
  product_url : String
  product_name : String
  brand : String
  retailer : String
  ingredients : List String
  overall_score : ℤ
  allergens_detected : List AllergenDetection
  pfas_detected : List PFASDetection
  other_concerns : List ToxinConcern
  confidence : ℚ
  analyzed_at : String
  analysis_version : String
  claude_model : String
deriving DecidableEq, Repr

/-- Alternative product recommendation (`AlternativeProduct`). -/
structure AlternativeProduct where
  id : Option String
  product_url : String
  product_name : String
  brand : String
  safety_score : ℤ
  safety_improvement : ℤ
  price : Option ℚ
  price_difference : Option ℚ
  rank : ℕ
  affiliate_link : Option String
  affiliate_network : Option String
  recommended_at : Option String
deriving DecidableEq, Repr

/-- Complete response with analysis and alternatives (`AnalysisResponse`). -/
structure AnalysisResponse where
  analysis : ProductAnalysis
  alternatives : List AlternativeProduct
  cached : Bool
  cache_age_seconds : Option ℕ
  url_hash : Option String
  reviews_stored : Option ℤ
deriving DecidableEq, Repr

/-- A record of the IndexedDB `analyses` object store (`CachedAnalysis`),
keyed by `url` (the store keyPath). -/
structure CachedAnalysis where
  data : AnalysisResponse
  timestamp : ℕ
  url : String
deriving DecidableEq, Repr

/-! ## Extension cache (`extension/src/lib/cache.ts::CacheManager`)

The IndexedDB object store is modelled as a list of records keyed by `url`;
`db.put` replaces the record with the same key. Wall-clock reads
(`Date.now()`) become an explicit `now : ℕ` parameter (milliseconds). -/

/-- Milliseconds in 30 days (`CACHE_TTL` in `cache.ts`). -/
def CACHE_TTL : ℕ := 30 * 24 * 60 * 60 * 1000

/-- IndexedDB `store.get(url)`: the record with key `url`, if any. -/
def storeGet (s : List CachedAnalysis) (url : String) : Option CachedAnalysis :=
  s.find? (fun c => c.url == url)

/-- IndexedDB `store.put(entry)`: insert, replacing any record with the same
`url` key. -/
def storePut (s : List CachedAnalysis) (entry : CachedAnalysis) : List CachedAnalysis :=
  entry :: s.filter (fun c => ¬ (c.url == entry.url))

/-- IndexedDB `store.delete(url)`. -/
def storeDelete (s : List CachedAnalysis) (url : String) : List CachedAnalysis :=
  s.filter (fun c => ¬ (c.url == url))

/-- `CacheManager.set(url, data)`: stores `{url, data, timestamp: Date.now()}`. -/
def cacheSet (s : List CachedAnalysis) (url : String) (data : AnalysisResponse)
    (now : ℕ) : List CachedAnalysis :=
  storePut s ⟨data, now, url⟩

/-- `CacheManager.get(url)`: `null` on miss; on a hit older than `CACHE_TTL`
the entry is deleted and `null` returned; otherwise the cached data. Returns
the result together with the updated store. -/
def cacheGet (s : List CachedAnalysis) (url : String) (now : ℕ) :
    Option AnalysisResponse × List CachedAnalysis :=
  match storeGet s url with
  | none => (none, s)
  | some c =>
      if now - c.timestamp > CACHE_TTL then (none, storeDelete s url)
      else (some c.data, s)

/-! ## Backend analysis cache (`infrastructure/database.py`)

`database.py` is not in the snapshot; the flow document records
`store_analysis` as an upsert into `product_analyses` keyed on `url_hash` and
`get_cached_analysis` as a select returning the row for `url_hash` or `None`.
The table is modelled as an association list keyed by `url_hash`. -/

/-- Modelled from the spec: `DatabaseService.store_analysis` — upsert the
analysis row wholesale under its `url_hash` key (replaces, never merges). -/
def store_analysis (table : List (String × ProductAnalysis)) (url_hash : String)
    (row : ProductAnalysis) : List (String × ProductAnalysis) :=
  (url_hash, row) :: table.filter (fun kv => ¬ (kv.1 == url_hash))

/-- Modelled from the spec: `DatabaseService.get_cached_analysis` — the stored
row for `url_hash`, if any. -/
def get_cached_analysis (table : List (String × ProductAnalysis))
    (url_hash : String) : Option ProductAnalysis :=
  (table.find? (fun kv => kv.1 == url_hash)).map Prod.snd

/-! ## Scrape-confidence routing (`api/routes/analyze.py`, cache-miss branch) -/

/-- A scraped product page: raw HTML plus the scraper's structural confidence
score in [0,1] (`ScrapedProduct` in `domain/models.py`). -/
structure ScrapedProduct where
  raw_html_product : String
  confidence : ℚ
deriving DecidableEq, Repr

/-- The two analysis paths on a cache miss: the primary path
(`extract_product_data` then `analyze_extracted_product`) and the fallback
path (`analyze_product`, in which the agent fetches the page itself). -/
inductive AnalysisPath where
  | primaryExtract : AnalysisPath
  | fallbackAgent : AnalysisPath
deriving DecidableEq, Repr

/-- Modelled from the spec: the routing decision of the analyze endpoint (flow
document, cache-miss branch): if scraping succeeded and confidence > 0.3 the
primary extraction path runs; if scraping failed (`None`) or confidence is
low, the fallback agent-fetch path runs instead. -/
def routeAnalysis (scraped : Option ScrapedProduct) : AnalysisPath :=
  match scraped with
  | some s => if s.confidence > 3/10 then .primaryExtract else .fallbackAgent
  | none => .fallbackAgent

/-! ## Knowledge-base fuzzy matcher (`domain/ingredient_matcher.py`)

The matcher compares ingredient names against knowledge-base entries with
`difflib.SequenceMatcher(None, a, b).ratio()` and accepts on
`similarity > 0.75` (strict, per the matching loop recorded in the audit
document). `SequenceMatcher` is embedded below: with no junk heuristic,
`find_longest_match` returns the longest common contiguous block (ties broken
by smallest first index, then smallest second index), `ratio` is `2·M / T`
where `M` sums the recursively collected matching blocks and `T` is the total
length (1.0 when both strings are empty, matching `_calculate_ratio`). -/

/-- Length of the common prefix of two character lists (the length of the
matching run starting at a given index pair). -/
def runLen : List Char → List Char → ℕ
  | x :: xs, y :: ys => if x = y then runLen xs ys + 1 else 0
  | _, _ => 0

/-- One step of `find_longest_match`: keep the incumbent block unless the
candidate index pair starts a strictly longer matching run. -/
def lmStep (a b : List Char) (best : ℕ × ℕ × ℕ) (ij : ℕ × ℕ) : ℕ × ℕ × ℕ :=
  let k := runLen (a.drop ij.1) (b.drop ij.2)
  if best.2.2 < k then (ij.1, ij.2, k) else best

/-- All index pairs `(i, j)` scanned by `find_longest_match`, first index
ascending, second index ascending. -/
def indexPairs (la lb : ℕ) : List (ℕ × ℕ) :=
  (List.range la).flatMap (fun i => (List.range lb).map (fun j => (i, j)))

/-- `SequenceMatcher.find_longest_match` over whole strings (no junk): the
`(i, j, size)` of the longest matching block. -/
def find_longest_match (a b : List Char) : ℕ × ℕ × ℕ :=
  (indexPairs a.length b.length).foldl (lmStep a b) (0, 0, 0)

/-- Total size of the matching blocks (`get_matching_blocks`): the longest
block plus, recursively, the blocks to its left and right. `fuel` bounds the
recursion depth; `matchSum` supplies enough for termination. -/
def matchSumAux : ℕ → List Char → List Char → ℕ
  | 0, _, _ => 0
  | fuel + 1, a, b =>
    let m := find_longest_match a b
    if m.2.2 = 0 then 0
    else matchSumAux fuel (a.take m.1) (b.take m.2.1)
      + m.2.2 + matchSumAux fuel (a.drop (m.1 + m.2.2)) (b.drop (m.2.1 + m.2.2))

/-- Total matched characters `M` between two strings. -/
def matchSum (a b : List Char) : ℕ := matchSumAux (a.length + b.length + 1) a b

/-- `SequenceMatcher.ratio()`: `2·M / T` (and 1.0 when both inputs are
empty). -/
def ratio (a b : List Char) : ℚ :=
  if a.length + b.length = 0 then 1
  else 2 * (matchSum a b : ℚ) / ((a.length : ℚ) + (b.length : ℚ))

/-- The `similar(a, b)` helper of `ingredient_matcher.py`: the
`SequenceMatcher` ratio of the two names. -/
def similar (a b : String) : ℚ := ratio a.data b.data

/-- Modelled from the spec: substance-name normalization before matching —
lowercase, trim surrounding whitespace, strip punctuation (keep alphanumeric
characters and spaces). -/
def normalizeName (s : String) : String :=
  String.mk ((((s.data.dropWhile (fun c => c.isWhitespace)).reverse.dropWhile
      (fun c => c.isWhitespace)).reverse.map Char.toLower).filter
    (fun c => c.isAlphanum || c == ' '))

/-- A knowledge-base record: canonical substance name, synonym set, category,
default severity, and precursor/metabolite annotations. -/
structure KnowledgeBaseEntry where
  canonical_name : String
  synonyms : List String
  category : SubstanceCategory
  severity_default : ℕ
  is_precursor : Bool
  is_metabolite : Bool
  related_compounds : List String
deriving DecidableEq, Repr

/-- Best similarity of a (normalized) ingredient name against an entry's
canonical name and synonyms. -/
def entryScore (ingredient : String) (e : KnowledgeBaseEntry) : ℚ :=
  ((e.canonical_name :: e.synonyms).map
    (fun n => similar (normalizeName ingredient) n)).foldl max 0

/-- Whether the matcher validates an ingredient against the knowledge base:
some entry scores strictly above the 0.75 threshold (`similarity > 0.75` in
the matching loop). -/
def validates (ingredient : String) (kb : List KnowledgeBaseEntry) : Bool :=
  kb.any (fun e => entryScore ingredient e > 3/4)

/-! ## Validation filter (`api/routes/analyze.py::validate_and_filter_substances`)

The API README records this function as running in LOG-ONLY mode
("LOG-ONLY validation mode ships invalid data", analyze.py:130): detections
that fail knowledge-base validation are logged but **kept** in the shipped
detection list. -/

/-- Modelled from the spec: `validate_and_filter_substances` in its current
LOG-ONLY mode. Returns (shipped detections, logged warnings): every input
detection is shipped unchanged; the warning list holds exactly the detections
whose names fail knowledge-base validation. -/
def validate_and_filter_substances (detections : List ValidatedDetection)
    (kb : List KnowledgeBaseEntry) :
    List ValidatedDetection × List ValidatedDetection :=
  (detections, detections.filter (fun d => !(validates d.canonical_name kb)))

/-! ## Analyze endpoint input handling (`api/routes/analyze.py::analyze_product`)

The API README and the production audit record that `product_url` receives no
validation (no scheme/domain check): the endpoint proceeds directly to URL
hashing and cache lookup for any input string. -/

/-- Pipeline stages of the analyze endpoint on the backend. -/
inductive Stage where
  | urlHashing : Stage
  | cacheLookup : Stage
  | scrape : Stage
  | extract : Stage
  | detect : Stage
  | score : Stage
  | cacheWrite : Stage
deriving DecidableEq, Repr

/-- Modelled from the spec: a well-formed absolute URL — an `http://` or
`https://` scheme followed by a non-empty remainder. -/
def isWellFormedAbsoluteUrl (url : String) : Bool :=
  (List.isPrefixOf ['h','t','t','p',':','/','/'] url.data && url.data.length > 7) ||
    (List.isPrefixOf ['h','t','t','p','s',':','/','/'] url.data && url.data.length > 8)

/-- Modelled from the spec: the stage trace of the analyze endpoint. There is
no `product_url` validation step: for every input string (the URL parameter is
never inspected for well-formedness, hence unused here) the trace begins with
URL hashing and cache lookup, and on a cache miss continues with scraping,
the routed extraction/detection path, scoring and the cache write. -/
def analyzeStages (_product_url : String) (cacheHit : Bool)
    (scraped : Option ScrapedProduct) : List Stage :=
  Stage.urlHashing :: Stage.cacheLookup ::
    (if cacheHit then []
     else Stage.scrape ::
       ((match routeAnalysis scraped with
         | .primaryExtract => [Stage.extract, Stage.detect]
         | .fallbackAgent => [Stage.detect]) ++ [Stage.score, Stage.cacheWrite]))

/-! ## Safety-score / harm-score conversion -/

/-- `getHarmScore(overallScore)` (`extension/src/lib/utils.ts`): the harm
score recovered from the stored overall (safety) score. -/
def getHarmScore (overallScore : ℚ) : ℚ := 100 - overallScore

/-- Modelled from the spec: the backend builds the response with
`overall_score = 100 - harm_score` (flow document, ProductAnalysis
construction). -/
def overall_score_of_harm (harm_score : ℚ) : ℚ := 100 - harm_score

/-- The inline conversion in `content.ts::startAnalysis`:
`harmScore = 100 - data.analysis.overall_score`. -/
def contentHarmScore (overall_score : ℚ) : ℚ := 100 - overall_score

/-- Sample analysis row used by concrete witnesses. -/
def sampleAnalysis : ProductAnalysis :=
  ⟨none, "https://www.amazon.com/dp/B081PK2PFG", "Test Product", "Acme",
   "amazon", ["water"], 60, [], [], [], 9/10, "2025-11-18T00:00:00Z", "0.2.0",
   "claude-sonnet-4-5-20250929"⟩

/-- Sample API response used by concrete witnesses. -/
def sampleResponse : AnalysisResponse :=
  ⟨sampleAnalysis, [], false, none, none, none⟩

end Ruh

namespace Ruh

/-! ### Basic harm-score facts -/

theorem detectionPoints_nonneg (d : ValidatedDetection) : 0 ≤ detectionPoints d := by
  unfold detectionPoints allergenPoints toxinPoints
  have h10 : (1 : ℕ) ≤ min (max d.severity 1) 10 := by omega
  have h1 : (1 : ℚ) ≤ ((min (max d.severity 1) 10 : ℕ) : ℚ) := by exact_mod_cast h10
  rcases d.category <;> simp only
  · nlinarith
  · norm_num
  · nlinarith

theorem base_nonneg (detections : List ValidatedDetection) :
    0 ≤ (detections.map detectionPoints).sum := by
  induction detections with
  | nil => simp
  | cons d ds ih =>
    simp only [List.map_cons, List.sum_cons]
    have := detectionPoints_nonneg d
    linarith

theorem categoryMultiplier_ge_one (category : String) : 1 ≤ categoryMultiplier category := by
  unfold categoryMultiplier
  split <;> [norm_num; skip]
  split <;> norm_num

/-- C1: any non-empty validated detection list yields a harm score of at
least 25, for every overall confidence and product category (the calculator's
floor rule). -/
theorem harmScore_floor (detections : List ValidatedDetection) (overall_confidence : ℚ)
    (category : String) (h : detections ≠ []) :
    25 ≤ harmScore detections overall_confidence category := by
  simp only [harmScore, if_neg h]
  exact le_max_left _ _

/-- Witness for C1: a single PFAS detection with confidence 0.9 in category
"cosmetics" scores at least 25. -/
theorem harmScore_floor_witness :
    25 ≤ harmScore [⟨"PFOA", SubstanceCategory.persistentChemical, 5, 9/10⟩]
      (9/10) "cosmetics" :=
  harmScore_floor _ _ _ (List.cons_ne_nil _ _)

/-- C2: for every detection list, overall confidence and product category, the
harm score lies in the closed interval [0, 100]. -/
theorem harmScore_bounds (detections : List ValidatedDetection) (overall_confidence : ℚ)
    (category : String) :
    0 ≤ harmScore detections overall_confidence category ∧
      harmScore detections overall_confidence category ≤ 100 := by
  simp only [harmScore]
  constructor
  · split
    · exact le_max_left _ _
    · exact le_trans (by norm_num) (le_max_left 25 _)
  · split
    · exact max_le (by norm_num) (min_le_right _ _)
    · exact max_le (by norm_num) (max_le (by norm_num) (min_le_right _ _))

/-- C8: appending one additional persistent-chemical (PFAS-class) detection to
a fixed detection list never decreases the harm score. -/
theorem harmScore_pfas_monotone (detections : List ValidatedDetection)
    (overall_confidence : ℚ) (category : String) (p : ValidatedDetection)
    (h : p.category = SubstanceCategory.persistentChemical) :
    harmScore detections overall_confidence category ≤
      harmScore (detections ++ [p]) overall_confidence category := by
  have hpts : detectionPoints p = 40 := by unfold detectionPoints; rw [h]
  have hbase : (detections.map detectionPoints).sum ≤
      ((detections ++ [p]).map detectionPoints).sum := by
    simp only [List.map_append, List.sum_append, List.map_cons, List.map_nil,
      List.sum_cons, List.sum_nil, hpts]
    linarith
  have hm : (0 : ℚ) ≤ categoryMultiplier category :=
    le_trans (by norm_num) (categoryMultiplier_ge_one category)
  have hscaled : (detections.map detectionPoints).sum * categoryMultiplier category ≤
      ((detections ++ [p]).map detectionPoints).sum * categoryMultiplier category :=
    mul_le_mul_of_nonneg_right hbase hm
  have hpen : (if overall_confidence < 7/10 then
        (detections.map detectionPoints).sum * categoryMultiplier category
          + confidencePenalty
      else (detections.map detectionPoints).sum * categoryMultiplier category) ≤
      (if overall_confidence < 7/10 then
        ((detections ++ [p]).map detectionPoints).sum * categoryMultiplier category
          + confidencePenalty
      else ((detections ++ [p]).map detectionPoints).sum * categoryMultiplier category) := by
    split <;> linarith
  have hclamp : max 0 (min (if overall_confidence < 7/10 then
        (detections.map detectionPoints).sum * categoryMultiplier category
          + confidencePenalty
      else (detections.map detectionPoints).sum * categoryMultiplier category) 100) ≤
      max 0 (min (if overall_confidence < 7/10 then
        ((detections ++ [p]).map detectionPoints).sum * categoryMultiplier category
          + confidencePenalty
      else ((detections ++ [p]).map detectionPoints).sum * categoryMultiplier category) 100) :=
    max_le_max le_rfl (min_le_min hpen le_rfl)
  have happ : detections ++ [p] ≠ [] := by
    intro hcontra
    exact List.cons_ne_nil p [] (List.append_eq_nil.mp hcontra).2
  simp only [harmScore, if_neg happ]
  split
  · exact le_trans hclamp (le_max_right 25 _)
  · exact max_le_max le_rfl hclamp

/-- Witness for C8: appending a PFAS detection to the empty list does not
decrease the score. -/
theorem harmScore_pfas_monotone_witness :
    harmScore [] 1 "cosmetics" ≤
      harmScore ([] ++ [⟨"PFOA", SubstanceCategory.persistentChemical, 5, 9/10⟩])
        1 "cosmetics" :=
  harmScore_pfas_monotone [] 1 "cosmetics" _ rfl

/-! ### Cache key derivation facts -/

set_option maxRecDepth 20000 in
/-- C3 counterexample: two URLs that differ only by a tracking query parameter
(`utm_source`) receive different url_hashes. `generate_url_hash` digests the
raw URL string; no query-string normalization is applied before hashing, so
equivalent product URLs do not collide to the same cache key. -/
theorem url_hash_tracking_params_differ :
    generate_url_hash "https://www.amazon.com/dp/B081PK2PFG" ≠
      generate_url_hash "https://www.amazon.com/dp/B081PK2PFG?utm_source=twitter" := by
  decide

set_option maxRecDepth 20000 in
/-- C3 amended: url_hash is the SHA-256 hex digest of the raw (un-normalized)
URL string — these are the genuine SHA-256 digests of the two URLs, so the
tracking-parameter variant occupies a distinct cache entry. -/
theorem url_hash_raw_sha256 :
    generate_url_hash "https://www.amazon.com/dp/B081PK2PFG" =
      "d20c09b68c97bd14e0b2c61dace10f4b19e5b984f5dd537469280422d629b421" ∧
    generate_url_hash "https://www.amazon.com/dp/B081PK2PFG?utm_source=twitter" =
      "ecaf3d9eb07b615a145a25119ea3cf5d3842d9d73507dacf29d239ec3b7b5b9b" :=
  ⟨rfl, rfl⟩

/-! ### Cache round-trip facts -/

/-- C4: put followed by get is a faithful round trip, in both cache layers.
Extension: `CacheManager.set(url, data)` then `CacheManager.get(url)` (within
the 30-day TTL, in particular immediately) returns `data`. Backend:
`store_analysis` then `get_cached_analysis` on the same `url_hash` returns the
stored row. -/
theorem cache_put_get_roundtrip (s : List CachedAnalysis) (url : String)
    (data : AnalysisResponse) (tset tget : ℕ)
    (table : List (String × ProductAnalysis)) (uh : String) (row : ProductAnalysis)
    (_hle : tset ≤ tget) (httl : tget - tset ≤ CACHE_TTL) :
    (cacheGet (cacheSet s url data tset) url tget).1 = some data ∧
      get_cached_analysis (store_analysis table uh row) uh = some row := by
  constructor
  · have hfind : storeGet (cacheSet s url data tset) url =
        some ⟨data, tset, url⟩ := by
      simp [storeGet, cacheSet, storePut]
    simp only [cacheGet, hfind]
    rw [if_neg (by simpa using Nat.not_lt.mpr httl)]
  · simp [get_cached_analysis, store_analysis]

/-- Witness for C4: a concrete put/get round trip at time 0 in both layers. -/
theorem cache_put_get_roundtrip_witness :
    (cacheGet (cacheSet [] "https://www.amazon.com/dp/B081PK2PFG" sampleResponse 0)
        "https://www.amazon.com/dp/B081PK2PFG" 0).1 = some sampleResponse ∧
      get_cached_analysis (store_analysis [] "abc" sampleAnalysis) "abc" =
        some sampleAnalysis :=
  cache_put_get_roundtrip [] _ _ 0 0 [] "abc" sampleAnalysis (Nat.le_refl 0)
    (Nat.zero_le _)

/-! ### Routing facts -/

/-- C5: whenever the scraper's confidence is strictly below 0.3 (or scraping
failed outright), the pipeline routes to the fallback agent-fetch path and the
primary Extractor path is never invoked. -/
theorem low_confidence_routes_to_fallback (scraped : Option ScrapedProduct)
    (h : ∀ s, scraped = some s → s.confidence < 3/10) :
    routeAnalysis scraped = AnalysisPath.fallbackAgent ∧
      routeAnalysis scraped ≠ AnalysisPath.primaryExtract := by
  have hroute : routeAnalysis scraped = AnalysisPath.fallbackAgent := by
    cases scraped with
    | none => rfl
    | some s =>
        have hs := h s rfl
        simp only [routeAnalysis]
        rw [if_neg (by exact not_lt.mpr (le_of_lt hs))]
  exact ⟨hroute, by rw [hroute]; intro hcontra; cases hcontra⟩

/-- Witness for C5: a scrape reporting confidence 0.1 is routed to the
fallback agent-fetch path. -/
theorem low_confidence_routes_to_fallback_witness :
    routeAnalysis (some ⟨"<html></html>", 1/10⟩) = AnalysisPath.fallbackAgent ∧
      routeAnalysis (some ⟨"<html></html>", 1/10⟩) ≠ AnalysisPath.primaryExtract :=
  low_confidence_routes_to_fallback _
    (by intro s hs; cases hs; show (1/10 : ℚ) < 3/10; norm_num)

/-! ### SequenceMatcher facts -/

theorem runLen_self : ∀ l : List Char, runLen l l = l.length
  | [] => rfl
  | x :: xs => by simp [runLen, runLen_self xs]

theorem runLen_le_left : ∀ a b : List Char, runLen a b ≤ a.length
  | [], _ => Nat.le_refl 0
  | _ :: _, [] => Nat.zero_le _
  | x :: xs, y :: ys => by
    simp only [runLen]
    split
    · exact Nat.succ_le_succ (runLen_le_left xs ys)
    · exact Nat.zero_le _

theorem foldl_lmStep_const (a b : List Char) :
    ∀ (l : List (ℕ × ℕ)) (best : ℕ × ℕ × ℕ),
      (∀ p ∈ l, runLen (a.drop p.1) (b.drop p.2) ≤ best.2.2) →
      l.foldl (lmStep a b) best = best
  | [], _, _ => rfl
  | p :: ps, best, h => by
    have hp := h p (List.mem_cons_self p ps)
    have hstep : lmStep a b best p = best := by
      simp only [lmStep]
      rw [if_neg (Nat.not_lt.mpr hp)]
    rw [List.foldl_cons, hstep]
    exact foldl_lmStep_const a b ps best (fun q hq => h q (List.mem_cons_of_mem p hq))

theorem indexPairs_head (m k : ℕ) :
    indexPairs (m + 1) (k + 1) =
      (0, 0) :: (((List.range k).map Nat.succ).map (fun j => ((0:ℕ), j)) ++
        ((List.range m).map Nat.succ).flatMap
          (fun i => (List.range (k + 1)).map (fun j => (i, j)))) := by
  rw [indexPairs, List.range_succ_eq_map, List.flatMap_cons]
  rw [List.range_succ_eq_map, List.map_cons, List.cons_append]

theorem find_longest_match_self (l : List Char) (h : l ≠ []) :
    find_longest_match l l = (0, 0, l.length) := by
  obtain ⟨x, xs, rfl⟩ := List.exists_cons_of_ne_nil h
  have hlen : (x :: xs).length = xs.length + 1 := rfl
  have ht := indexPairs_head xs.length xs.length
  rw [find_longest_match, hlen, ht, List.foldl_cons]
  have hfirst : lmStep (x :: xs) (x :: xs) (0, 0, 0) (0, 0) =
      (0, 0, xs.length + 1) := by
    simp only [lmStep, List.drop_zero, runLen_self, List.length_cons]
    rw [if_pos (Nat.succ_pos xs.length)]
  rw [hfirst]
  refine foldl_lmStep_const _ _ _ _ (fun q _ => ?_)
  calc runLen ((x :: xs).drop q.1) ((x :: xs).drop q.2)
      ≤ ((x :: xs).drop q.1).length := runLen_le_left _ _
    _ ≤ (x :: xs).length := by rw [List.length_drop]; omega
    _ = xs.length + 1 := rfl

theorem matchSumAux_nil : ∀ fuel : ℕ, matchSumAux fuel [] [] = 0
  | 0 => rfl
  | _ + 1 => rfl

theorem matchSum_self (l : List Char) (h : l ≠ []) : matchSum l l = l.length := by
  have hpos : 0 < l.length := List.length_pos.mpr h
  rw [matchSum]
  obtain ⟨fuel, hfuel⟩ : ∃ f, l.length + l.length + 1 = f + 1 := ⟨_, rfl⟩
  rw [hfuel]
  simp only [matchSumAux, find_longest_match_self l h]
  rw [if_neg (Nat.pos_iff_ne_zero.mp hpos)]
  simp only [List.take_zero, Nat.zero_add, List.drop_length, matchSumAux_nil]
  omega

theorem ratio_self (l : List Char) (h : l ≠ []) : ratio l l = 1 := by
  have hpos : 0 < l.length := List.length_pos.mpr h
  have hne : ((l.length : ℚ) + l.length) ≠ 0 := by
    have : (0:ℚ) < (l.length : ℚ) + l.length := by positivity
    exact ne_of_gt this
  rw [ratio, if_neg (by omega), matchSum_self l h]
  field_simp
  ring

theorem similar_self (s : String) (h : s ≠ "") : similar s s = 1 := by
  refine ratio_self s.data (fun hd => h ?_)
  cases s with
  | mk l => simp at hd; rw [hd]

theorem init_le_foldl_max : ∀ (l : List ℚ) (init : ℚ), init ≤ l.foldl max init
  | [], _ => le_refl _
  | a :: t, init => le_trans (le_max_left init a) (init_le_foldl_max t (max init a))

theorem le_foldl_max : ∀ (l : List ℚ) (init x : ℚ), x ∈ l → x ≤ l.foldl max init
  | [], _, _, hx => absurd hx (List.not_mem_nil _)
  | a :: t, init, x, hx => by
    rcases List.mem_cons.mp hx with h | h
    · subst h
      exact le_trans (le_max_right init x) (init_le_foldl_max t (max init x))
    · exact le_foldl_max t (max init a) x h

/-! ### Matcher threshold facts -/

/-- C6 amended: the matcher accepts a raw claim iff its best knowledge-base
similarity score is **strictly** greater than 0.75 (not ≥): an ingredient
whose normalized name exactly equals a canonical name always validates
(similarity 1), and one scoring below the threshold against every entry never
validates; a score of exactly 0.75 is rejected. -/
theorem matcher_strict_threshold (ingredient : String) (kb : List KnowledgeBaseEntry) :
    (validates ingredient kb = true ↔ ∃ e ∈ kb, entryScore ingredient e > 3/4) ∧
    (∀ e ∈ kb, normalizeName ingredient = e.canonical_name →
      e.canonical_name ≠ "" → validates ingredient kb = true) ∧
    ((∀ e ∈ kb, entryScore ingredient e < 3/4) → validates ingredient kb = false) := by
  have hiff : validates ingredient kb = true ↔
      ∃ e ∈ kb, entryScore ingredient e > 3/4 := by
    simp [validates]
  refine ⟨hiff, ?_, ?_⟩
  · intro e he hnorm hne
    refine hiff.mpr ⟨e, he, ?_⟩
    have hsim : similar (normalizeName ingredient) e.canonical_name = 1 := by
      rw [hnorm]; exact similar_self _ hne
    have hmem : similar (normalizeName ingredient) e.canonical_name ∈
        (e.canonical_name :: e.synonyms).map
          (fun n => similar (normalizeName ingredient) n) := by
      simp
    have hle := le_foldl_max _ 0 _ hmem
    rw [hsim] at hle
    exact lt_of_lt_of_le (by norm_num) hle
  · intro hall
    rw [Bool.eq_false_iff]
    intro htrue
    obtain ⟨e, he, hgt⟩ := hiff.mp htrue
    exact absurd hgt (not_lt.mpr (le_of_lt (hall e he)))

/-- Witness for C6: the raw claim "  Milk! " normalizes to "milk", exactly a
canonical name, and validates against a knowledge base containing it. -/
theorem matcher_strict_threshold_witness :
    validates "  Milk! "
      [⟨"milk", ["whole milk"], SubstanceCategory.allergen, 8, false, false, []⟩]
      = true :=
  (matcher_strict_threshold "  Milk! "
      [⟨"milk", ["whole milk"], SubstanceCategory.allergen, 8, false, false, []⟩]).2.1
    _ (List.mem_cons_self _ _) (by decide) (by decide)

/-- C6 counterexample: the claim "accepts iff the best similarity reaches the
0.75 threshold" fails at the boundary — "abcz" scores exactly 0.75 against
canonical name "abcd" (so it reaches the threshold), yet the matcher rejects
it, because the code requires similarity strictly greater than 0.75. -/
theorem matcher_threshold_counterexample :
    entryScore "abcz"
        ⟨"abcd", [], SubstanceCategory.allergen, 5, false, false, []⟩ = 3/4 ∧
      validates "abcz"
        [⟨"abcd", [], SubstanceCategory.allergen, 5, false, false, []⟩] = false := by
  have hsim : similar (normalizeName "abcz") "abcd" = 3/4 := by
    rw [show normalizeName "abcz" = "abcz" from by decide]
    rw [similar, ratio]
    rw [show ("abcz".data.length) = 4 from rfl, show ("abcd".data.length) = 4 from rfl,
        show matchSum "abcz".data "abcd".data = 3 from rfl]
    norm_num
  have hscore : entryScore "abcz"
      ⟨"abcd", [], SubstanceCategory.allergen, 5, false, false, []⟩ = 3/4 := by
    simp only [entryScore, List.map_cons, List.map_nil, List.foldl_cons,
      List.foldl_nil, hsim]
    exact max_eq_right (by norm_num)
  refine ⟨hscore, ?_⟩
  simp only [validates, List.any_cons, List.any_nil, hscore, Bool.or_false]
  exact decide_eq_false (by norm_num)

/-! ### Validation-filter facts -/

/-- C7 amended: `validate_and_filter_substances` runs in LOG-ONLY mode — every
detection is shipped unchanged regardless of knowledge-base validation (so
unvalidated claims do reach the harm calculator), and the warning list holds
exactly the detections whose names fail validation. -/
theorem validate_log_only_keeps_all (detections : List ValidatedDetection)
    (kb : List KnowledgeBaseEntry) :
    (validate_and_filter_substances detections kb).1 = detections ∧
      ∀ d, d ∈ (validate_and_filter_substances detections kb).2 ↔
        d ∈ detections ∧ validates d.canonical_name kb = false := by
  refine ⟨rfl, fun d => ?_⟩
  simp [validate_and_filter_substances, List.mem_filter]

/-- C7 counterexample: a raw claim with no knowledge-base match is not
dropped — it is shipped in the final detection list (violating the claimed
invariant that every shipped detection exists in the Knowledge Base) and it
contributes to the harm score: the shipped list scores 40, not the 0 that the
properly filtered empty list would score. -/
theorem log_only_ships_unvalidated :
    (validate_and_filter_substances
        [⟨"unknownium", SubstanceCategory.persistentChemical, 5, 9/10⟩] []).1 =
      [⟨"unknownium", SubstanceCategory.persistentChemical, 5, 9/10⟩] ∧
    validates "unknownium" [] = false ∧
    harmScore (validate_and_filter_substances
        [⟨"unknownium", SubstanceCategory.persistentChemical, 5, 9/10⟩] []).1
      (9/10) "cosmetics" = 40 ∧
    harmScore [] (9/10) "cosmetics" = 0 := by
  refine ⟨rfl, rfl, ?_, ?_⟩
  · show harmScore [⟨"unknownium", SubstanceCategory.persistentChemical, 5, 9/10⟩]
      (9/10) "cosmetics" = 40
    have hcm : categoryMultiplier "cosmetics" = 1 := by simp [categoryMultiplier]
    simp only [harmScore, List.map_cons, List.map_nil, List.sum_cons, List.sum_nil,
      detectionPoints, hcm]
    rw [if_neg (by norm_num : ¬ (9/10 : ℚ) < 7/10),
      if_neg (List.cons_ne_nil _ _)]
    norm_num [max_def, min_def]
  · have hcm : categoryMultiplier "cosmetics" = 1 := by simp [categoryMultiplier]
    simp only [harmScore, List.map_nil, List.sum_nil, if_pos rfl, hcm]
    rw [if_neg (by norm_num : ¬ (9/10 : ℚ) < 7/10)]
    norm_num [max_def, min_def]

/-! ### Input-validation facts -/

/-- C9 counterexample: the malformed input "not a url" is not a well-formed
absolute URL, yet the analyze endpoint is not rejected before the pipeline:
its stage trace is non-empty, starts with URL hashing, and (on a cache miss)
reaches the scoring stage. -/
theorem malformed_url_not_rejected :
    isWellFormedAbsoluteUrl "not a url" = false ∧
      analyzeStages "not a url" false none ≠ [] ∧
      (analyzeStages "not a url" false none).head? = some Stage.urlHashing ∧
      Stage.score ∈ analyzeStages "not a url" false none := by
  refine ⟨by decide, ?_, rfl, ?_⟩
  · simp [analyzeStages]
  · simp [analyzeStages, routeAnalysis]

/-- C9 amended: `product_url` is never validated — for every input string,
well-formed or not, the pipeline runs: the trace starts with URL hashing,
contains the cache lookup and (on a miss) the scoring stage, and is entirely
independent of the URL's content. -/
theorem analyze_runs_for_any_url (url : String) (scraped : Option ScrapedProduct) :
    (analyzeStages url false scraped).head? = some Stage.urlHashing ∧
      Stage.cacheLookup ∈ analyzeStages url false scraped ∧
      Stage.score ∈ analyzeStages url false scraped ∧
      analyzeStages url false scraped = analyzeStages "not a url" false scraped := by
  refine ⟨rfl, ?_, ?_, rfl⟩
  · simp [analyzeStages]
  · rcases hr : routeAnalysis scraped <;> simp [analyzeStages, hr]

/-! ### Score-conversion facts -/

/-- C10: the stored `overall_score` is the safety score `100 - harm_score`,
and both the extension utility `getHarmScore` and the inline conversion in
`content.ts` invert it exactly: for every harm score in [0,100] the harm score
displayed to the user equals the harm score the calculator produced. -/
theorem overall_score_roundtrip (h : ℚ) (_h0 : 0 ≤ h) (_h100 : h ≤ 100) :
    overall_score_of_harm h = 100 - h ∧
      getHarmScore (overall_score_of_harm h) = h ∧
      contentHarmScore (overall_score_of_harm h) = h := by
  refine ⟨rfl, ?_, ?_⟩ <;>
    simp [getHarmScore, overall_score_of_harm, contentHarmScore]

/-- Witness for C10: harm score 40 is stored as overall score 60 and recovered
as 40 by both conversions. -/
theorem overall_score_roundtrip_witness :
    overall_score_of_harm 40 = 100 - 40 ∧
      getHarmScore (overall_score_of_harm 40) = 40 ∧
      contentHarmScore (overall_score_of_harm 40) = 40 :=
  overall_score_roundtrip 40 (by norm_num) (by norm_num)

end Ruh
